import Mathlib

/-
Shallow embedding of the llm_recommender repository (Databricks notebooks
00-03).  The original-logic surface lives in src/03_Assemble_Recommender.py:
a prompt builder, an inline JSON-object extraction over the raw LLM response,
a vector-index projection step, the LLM4rec orchestrator and a single-route
FastAPI handler; src/01_Prepare_Product_Search_Data.py contributes two
one-time provisioning polling loops, and src/02_Create_General_Recommendations.py
an alternate user-prompt builder.

External managed services (the chat-completion endpoint and the vector index)
are modelled as oracle functions supplied to the pipeline; every network call
the code makes is recorded in an explicit call log so that claims of the form
"service X is never invoked" are statable.  Python exceptions are modelled by
Except String carrying the exception text; Python dict/list/str values that
flow through the pipeline are modelled by the Json type below.  json.loads
(Python stdlib) is modelled by an executable recursive-descent parser;
the model restricts JSON numeric literals to integers and string escapes to
the single-character escapes (no \u escapes), which is sufficient for every
value this pipeline manipulates.
-/

/-- special characters are built by code rather than written as literals. -/
def lbrace : Char := Char.ofNat 123

def rbrace : Char := Char.ofNat 125

def dquote : Char := Char.ofNat 34

def bslash : Char := Char.ofNat 92

def squote : Char := Char.ofNat 39

/-- one-character strings for assembling literals. -/
def apo : String := String.mk [squote]

def lb : String := String.mk [lbrace]

def rb : String := String.mk [rbrace]

/-- Python values produced by json.loads, and more generally the Python
values (str / list / dict / int / bool / None) that flow through the
pipeline.  Numbers are modelled as integers. -/
inductive Json where
  | null : Json
  | bool : Bool → Json
  | num : Int → Json
  | str : String → Json
  | arr : List Json → Json
  | obj : List (String × Json) → Json

/-- JSON whitespace as accepted by json.loads. -/
def isJsonWs (c : Char) : Bool :=
  c = ' ' ∨ c = '\t' ∨ c = '\n' ∨ c = '\r'

def skipWs : List Char → List Char
  | [] => []
  | c :: cs => if isJsonWs c then skipWs cs else c :: cs

/-- single-character string escapes of JSON (\u escapes are not modelled). -/
def escChar (c : Char) : Option Char :=
  if c = dquote then some dquote
  else if c = bslash then some bslash
  else if c = '/' then some '/'
  else if c = 'n' then some '\n'
  else if c = 't' then some '\t'
  else if c = 'r' then some '\r'
  else if c = 'b' then some (Char.ofNat 8)
  else if c = 'f' then some (Char.ofNat 12)
  else none

/-- body of a JSON string literal, after the opening quote. -/
def parseStringBody : List Char → Except String (String × List Char)
  | [] => Except.error "JSONDecodeError: Unterminated string"
  | c :: cs =>
    if c = dquote then Except.ok ("", cs)
    else if c = bslash then
      match cs with
      | [] => Except.error "JSONDecodeError: Unterminated string"
      | e :: cs2 =>
        match escChar e with
        | some ec =>
          match parseStringBody cs2 with
          | Except.ok (s, r) => Except.ok (String.mk (ec :: s.data), r)
          | Except.error err => Except.error err
        | none => Except.error "JSONDecodeError: Invalid escape"
    else
      match parseStringBody cs with
      | Except.ok (s, r) => Except.ok (String.mk (c :: s.data), r)
      | Except.error err => Except.error err

def takeDigits : List Char → List Char × List Char
  | [] => ([], [])
  | c :: cs =>
    if c.isDigit then
      let (d, r) := takeDigits cs
      (c :: d, r)
    else ([], c :: cs)

def digitsToNat (acc : Nat) : List Char → Nat
  | [] => acc
  | c :: cs => digitsToNat (acc * 10 + (c.toNat - 48)) cs

/-- JSON numeric literal, restricted to optionally-signed integers. -/
def parseNumber : List Char → Except String (Json × List Char)
  | [] => Except.error "JSONDecodeError: Expecting value"
  | c :: rest =>
    if c = '-' then
      match takeDigits rest with
      | ([], _) => Except.error "JSONDecodeError: Expecting value"
      | (ds, r) => Except.ok (Json.num (-(digitsToNat 0 ds : Int)), r)
    else
      match takeDigits (c :: rest) with
      | ([], _) => Except.error "JSONDecodeError: Expecting value"
      | (ds, r) => Except.ok (Json.num (digitsToNat 0 ds : Int), r)

/-- strips p from the front of s, if present. -/
def stripLeading (p s : List Char) : Option (List Char) :=
  match p, s with
  | [], s2 => some s2
  | a :: ps, b :: ss => if a = b then stripLeading ps ss else none
  | _ :: _, [] => none

mutual

/-- recursive-descent JSON value parser (fuel bounds nesting depth). -/
def parseValue : Nat → List Char → Except String (Json × List Char)
  | 0, _ => Except.error "JSONDecodeError: recursion limit"
  | _ + 1, [] => Except.error "JSONDecodeError: Expecting value"
  | fuel + 1, c :: rest =>
    if c = dquote then
      match parseStringBody rest with
      | Except.ok (s, r) => Except.ok (Json.str s, r)
      | Except.error e => Except.error e
    else if c = lbrace then
      match skipWs rest with
      | c2 :: rest2 =>
        if c2 = rbrace then Except.ok (Json.obj [], rest2)
        else
          match parseMembers fuel (c2 :: rest2) with
          | Except.ok (kvs, r) => Except.ok (Json.obj kvs, r)
          | Except.error e => Except.error e
      | [] => Except.error "JSONDecodeError: Expecting property name"
    else if c = '[' then
      match skipWs rest with
      | c2 :: rest2 =>
        if c2 = ']' then Except.ok (Json.arr [], rest2)
        else
          match parseItems fuel (c2 :: rest2) with
          | Except.ok (vs, r) => Except.ok (Json.arr vs, r)
          | Except.error e => Except.error e
      | [] => Except.error "JSONDecodeError: Expecting value"
    else
      match stripLeading "true".data (c :: rest) with
      | some r => Except.ok (Json.bool true, r)
      | none =>
        match stripLeading "false".data (c :: rest) with
        | some r => Except.ok (Json.bool false, r)
        | none =>
          match stripLeading "null".data (c :: rest) with
          | some r => Except.ok (Json.null, r)
          | none =>
            if c = '-' ∨ c.isDigit then parseNumber (c :: rest)
            else Except.error "JSONDecodeError: Expecting value"

/-- members of a JSON object, starting at the first property name. -/
def parseMembers : Nat → List Char → Except String (List (String × Json) × List Char)
  | 0, _ => Except.error "JSONDecodeError: recursion limit"
  | _ + 1, [] => Except.error "JSONDecodeError: Expecting property name"
  | fuel + 1, c :: rest =>
    if c = dquote then
      match parseStringBody rest with
      | Except.error e => Except.error e
      | Except.ok (k, cs2) =>
        match skipWs cs2 with
        | ':' :: cs3 =>
          match parseValue fuel (skipWs cs3) with
          | Except.error e => Except.error e
          | Except.ok (v, cs4) =>
            match skipWs cs4 with
            | c5 :: cs5 =>
              if c5 = ',' then
                match parseMembers fuel (skipWs cs5) with
                | Except.error e => Except.error e
                | Except.ok (kvs, cs6) => Except.ok ((k, v) :: kvs, cs6)
              else if c5 = rbrace then Except.ok ([(k, v)], cs5)
              else Except.error "JSONDecodeError: Expecting comma"
            | [] => Except.error "JSONDecodeError: Expecting comma"
        | _ => Except.error "JSONDecodeError: Expecting colon"
    else Except.error "JSONDecodeError: Expecting property name"

/-- items of a JSON array, starting at the first item. -/
def parseItems : Nat → List Char → Except String (List Json × List Char)
  | 0, _ => Except.error "JSONDecodeError: recursion limit"
  | _ + 1, [] => Except.error "JSONDecodeError: Expecting value"
  | fuel + 1, cs =>
    match parseValue fuel cs with
    | Except.error e => Except.error e
    | Except.ok (v, cs2) =>
      match skipWs cs2 with
      | c3 :: cs3 =>
        if c3 = ',' then
          match parseItems fuel (skipWs cs3) with
          | Except.error e => Except.error e
          | Except.ok (vs, cs4) => Except.ok (v :: vs, cs4)
        else if c3 = ']' then Except.ok ([v], cs3)
        else Except.error "JSONDecodeError: Expecting comma"
      | [] => Except.error "JSONDecodeError: Expecting comma"

end

/-- model of Python json.loads: one JSON document, whole input consumed. -/
def json_loads (s : String) : Except String Json :=
  match parseValue (s.data.length + 1) (skipWs s.data) with
  | Except.ok (v, rest) =>
    if skipWs rest = [] then Except.ok v
    else Except.error "JSONDecodeError: Extra data"
  | Except.error e => Except.error e

example : json_loads "\x7b\x7d" = Except.ok (Json.obj []) := rfl

example :
    json_loads "\x7b\"next_items\": [\"x\", \"y\"]\x7d" =
      Except.ok (Json.obj [("next_items", Json.arr [Json.str "x", Json.str "y"])]) := rfl

example : json_loads " [1, -2, true, null] " =
    Except.ok (Json.arr [Json.num 1, Json.num (-2), Json.bool true, Json.null]) := rfl

example : json_loads "Oi \x7b\"a\": 1\x7d" = Except.error "JSONDecodeError: Expecting value" := rfl

/-- character index of the last occurrence of c, as computed by Python
str.rindex over the raw text. -/
def lastIndexOf (c : Char) : List Char → Option Nat
  | [] => none
  | x :: xs =>
    match lastIndexOf c xs with
    | some i => some (i + 1)
    | none => if x = c then some 0 else none

/-- Python raw_text.rindex(c): raises ValueError when c does not occur. -/
def rindex (c : Char) (s : String) : Except String Nat :=
  match lastIndexOf c s.data with
  | some i => Except.ok i
  | none => Except.error "ValueError: substring not found"

/-- src/03_Assemble_Recommender.py line 105 / 255:
json_text = raw_text[:raw_text.rindex(rbrace)+1]. -/
def extract_json_text (raw_text : String) : Except String String :=
  match rindex rbrace raw_text with
  | Except.ok i => Except.ok (String.mk (raw_text.data.take (i + 1)))
  | Except.error e => Except.error e

/-- the extraction step of get_general_products (lines 105-106 / 255-256):
slice through the last rbrace, then json.loads on the slice. -/
def parse_llm_response (raw_text : String) : Except String Json :=
  match extract_json_text raw_text with
  | Except.ok json_text => json_loads json_text
  | Except.error e => Except.error e

/-- Python sep.join(l). -/
def str_join (sep : String) : List String → String
  | [] => ""
  | [x] => x
  | x :: y :: rest => x ++ sep ++ str_join sep (y :: rest)

/-- the fixed instruction sentence shared by src/03 line 66 and src/02 line 80
(src/02 prepends a space): respond as a JSON object with key next_items. -/
def json_instruction_pt : String :=
  "Expresse sua resposta como um objeto JSON com uma chave " ++ apo ++ "next_items" ++ apo ++
    " e um valor representando sua matriz de itens recomendados."

/-- app.py instruction sentence (line 220), same shape in English. -/
def json_instruction_en : String :=
  "Express your response as a JSON object with a key of " ++ apo ++ "next_items" ++ apo ++
    " and a value representing your array of recommended items."

/-- src/03 lines 60-61: system prompt of the notebook version. -/
def system_prompt_pt : String :=
  "Você é um assistente de IA que funciona como um sistema de recomendação para um site de comércio eletrônico." ++
    " Seja específico e limite suas respostas ao formato solicitado."

/-- app.py lines 214-215: system prompt of the deployed version. -/
def system_prompt_en : String :=
  "You are an AI assistant functioning as a recommendation system for an ecommerce website." ++
    " Be specific and limit your answers to the requested format."

/-- src/03 line 64 / app.py line 218:
items_delimited = (join(items[:-1]) + ", and " + items[-1]) if len(items) > 1 else items[0].
items[0] raises IndexError on the empty list; len(items) > 1 is rendered as the
two-or-more cons pattern. -/
def items_delimited_py : List String → Except String String
  | [] => Except.error "IndexError: list index out of range"
  | [i0] => Except.ok i0
  | i0 :: i1 :: rest =>
    Except.ok (str_join ", " ((i0 :: i1 :: rest).dropLast) ++ ", and " ++
      ((i1 :: rest).getLastD i0))

/-- src/03 lines 57-72: notebook prompt builder. -/
def _get_prompt (items : List String) : Except String String :=
  match items_delimited_py items with
  | Except.error e => Except.error e
  | Except.ok items_delimited =>
    Except.ok ("[INST] <<SYS>>\n" ++ system_prompt_pt ++ "\n<</SYS>>\n" ++
      ("Um usuário comprou " ++ items_delimited ++
        " nessa ordem. Quais seriam os cinco itens que ele/ela provavelmente compraria em seguida?" ++
        json_instruction_pt) ++ "[/INST]")

/-- app.py lines 211-226: prompt builder nested in get_general_products. -/
def _get_prompt_app (items : List String) : Except String String :=
  match items_delimited_py items with
  | Except.error e => Except.error e
  | Except.ok items_delimited =>
    Except.ok ("[INST] <<SYS>>\n" ++ system_prompt_en ++ "\n<</SYS>>\n" ++
      ("A user bought " ++ items_delimited ++
        " in that order. What five items would he/she be likely to purchase next?" ++
        json_instruction_en) ++ "[/INST]")

/-- src/02 lines 71-81: get_user_prompt.  prompt starts as None and is only
assigned for a non-empty list; the unconditional prompt += afterwards raises
TypeError when prompt is still None. -/
def get_user_prompt (ordered_list_of_items : List String) : Except String String :=
  match ordered_list_of_items with
  | [] => Except.error "TypeError: unsupported operand types for NoneType and str"
  | i0 :: rest =>
    let items := str_join ", " (i0 :: rest)
    let prompt := "Um usuário comprou os seguintes itens: " ++ items ++
      ". Quais seriam os próximos dez itens que ele/ela provavelmente compraria?"
    Except.ok (prompt ++ (" " ++ json_instruction_pt))

/-- a cell of a vector-search result row.  The id and score columns carry no
string payload in this pipeline and are never computed on, so non-string
cells are modelled by an integer payload (scores are floats in the source). -/
inductive Cell where
  | str : String → Cell
  | num : Int → Cell
deriving DecidableEq, Repr

/-- one network call made by the pipeline: a chat-completion POST with the
full prompt, or a vector-index similarity_search with the query text and
num_results. -/
inductive Call where
  | llm : String → Call
  | vs : String → Nat → Call
deriving DecidableEq, Repr

/-- the chat-completion service: maps the prompt to the message content
raw_text (the response-envelope unwrapping of line 102 / 252 is external
glue); an error models a failed or timed-out request. -/
def LlmOracle : Type := String → Except String String

/-- the vector index: maps (query_text, num_results) to the rows of
results.result.data_array; an error models a failed request. -/
def VsOracle : Type := String → Nat → Except String (List (List Cell))

mutual

/-- Python repr of a parsed-JSON value (strings rendered with single quotes;
escaping inside strings is not modelled). -/
def py_repr : Json → String
  | Json.null => "None"
  | Json.bool b => if b then "True" else "False"
  | Json.num n => toString n
  | Json.str s => apo ++ s ++ apo
  | Json.arr xs => "[" ++ py_repr_list xs ++ "]"
  | Json.obj kvs => lb ++ py_repr_members kvs ++ rb

def py_repr_list : List Json → String
  | [] => ""
  | [x] => py_repr x
  | x :: y :: rest => py_repr x ++ ", " ++ py_repr_list (y :: rest)

def py_repr_members : List (String × Json) → String
  | [] => ""
  | [(k, v)] => apo ++ k ++ apo ++ ": " ++ py_repr v
  | (k, v) :: m :: rest => apo ++ k ++ apo ++ ": " ++ py_repr v ++ ", " ++ py_repr_members (m :: rest)

end

/-- Python str(x): identity on str, repr-based rendering otherwise. -/
def pyStr : Json → String
  | Json.str s => s
  | Json.null => py_repr Json.null
  | Json.bool b => py_repr (Json.bool b)
  | Json.num n => py_repr (Json.num n)
  | Json.arr xs => py_repr (Json.arr xs)
  | Json.obj kvs => py_repr (Json.obj kvs)

example : pyStr (Json.arr [Json.str "x"]) = "[" ++ apo ++ "x" ++ apo ++ "]" := rfl

/-- Python list subscription l[i] with negative-index wraparound;
IndexError out of range. -/
def pyGet {α : Type} (l : List α) (i : Int) : Except String α :=
  let j : Int := if i < 0 then i + l.length else i
  if j < 0 then Except.error "IndexError: list index out of range"
  else
    match l.get? j.toNat with
    | some a => Except.ok a
    | none => Except.error "IndexError: list index out of range"

/-- Python dict subscription d[k] on a parsed-JSON value: KeyError when the
key is absent (duplicate keys: the last occurrence wins, as in dict
construction), TypeError when the value is not a dict. -/
def py_subscript (j : Json) (k : String) : Except String Json :=
  match j with
  | Json.obj kvs =>
    match (kvs.filter (fun kv => kv.1 = k)).getLast? with
    | some kv => Except.ok kv.2
    | none => Except.error ("KeyError: " ++ k)
  | _ => Except.error "TypeError: value is not subscriptable by a string key"

/-- a Python list comprehension whose element expression may raise:
fails at the first failing element. -/
def exMapM {α β : Type} (f : α → Except String β) : List α → Except String (List β)
  | [] => Except.ok []
  | x :: xs =>
    match f x with
    | Except.error e => Except.error e
    | Except.ok b =>
      match exMapM f xs with
      | Except.error e => Except.error e
      | Except.ok bs => Except.ok (b :: bs)

/-- src/03 lines 76-109: notebook get_general_products.  It slices the raw
response through the last rbrace, parses the slice (line 106 evaluates
json.loads even though its value is discarded) and returns the json_text
STRING.  The second component of the pair logs the network calls made. -/
def get_general_products (llm : LlmOracle) (items : List String) :
    Except String String × List Call :=
  match _get_prompt items with
  | Except.error e => (Except.error e, [])
  | Except.ok prompt =>
    match llm prompt with
    | Except.error e => (Except.error e, [Call.llm prompt])
    | Except.ok raw_text =>
      match extract_json_text raw_text with
      | Except.error e => (Except.error e, [Call.llm prompt])
      | Except.ok json_text =>
        match json_loads json_text with
        | Except.error e => (Except.error e, [Call.llm prompt])
        | Except.ok _ => (Except.ok json_text, [Call.llm prompt])

/-- app.py lines 208-259: deployed get_general_products.  Same request and
slice, but returns json.loads(json_text)[next_items] (a parsed value). -/
def get_general_products_app (llm : LlmOracle) (items : List String) :
    Except String Json × List Call :=
  match _get_prompt_app items with
  | Except.error e => (Except.error e, [])
  | Except.ok prompt =>
    match llm prompt with
    | Except.error e => (Except.error e, [Call.llm prompt])
    | Except.ok raw_text =>
      match extract_json_text raw_text with
      | Except.error e => (Except.error e, [Call.llm prompt])
      | Except.ok json_text =>
        match json_loads json_text with
        | Except.error e => (Except.error e, [Call.llm prompt])
        | Except.ok parsed =>
          match py_subscript parsed "next_items" with
          | Except.error e => (Except.error e, [Call.llm prompt])
          | Except.ok ret => (Except.ok ret, [Call.llm prompt])

/-- src/03 lines 124-140 / app.py lines 264-280: get_specific_products.
query_text = str(general_items); the result projects item[-2] from each row
of result.data_array (the index handle lookup of lines 127-130 carries no
logic and is folded into the oracle). -/
def get_specific_products (search : VsOracle) (general_items : Json) (num_items : Nat) :
    Except String (List Cell) × List Call :=
  let q := pyStr general_items
  match search q num_items with
  | Except.error e => (Except.error e, [Call.vs q num_items])
  | Except.ok results =>
    match exMapM (fun item => pyGet item (-2)) results with
    | Except.error e => (Except.error e, [Call.vs q num_items])
    | Except.ok texts => (Except.ok texts, [Call.vs q num_items])

/-- app.py lines 285-293: LLM4rec chains the two stages; the parsed
next_items value of the general stage is handed to get_specific_products. -/
def LLM4rec (llm : LlmOracle) (search : VsOracle) (items : List String) (n_items : Nat) :
    Except String (List Cell) × List Call :=
  match get_general_products_app llm items with
  | (Except.error e, log) => (Except.error e, log)
  | (Except.ok general_items, log) =>
    let r := get_specific_products search general_items n_items
    (r.1, log ++ r.2)

/-- src/03 lines 142-149: the notebook end-to-end cell, which hands the
json_text STRING returned by the notebook get_general_products to
get_specific_products. -/
def notebook_pipeline (llm : LlmOracle) (search : VsOracle) (items : List String) (n_items : Nat) :
    Except String (List Cell) × List Call :=
  match get_general_products llm items with
  | (Except.error e, log) => (Except.error e, log)
  | (Except.ok json_text, log) =>
    let r := get_specific_products search (Json.str json_text) n_items
    (r.1, log ++ r.2)

/-- an HTTP response of the single FastAPI route. -/
inductive HttpResponse where
  | ok : List Cell → HttpResponse
  | httpError : Nat → String → HttpResponse
deriving DecidableEq, Repr

/-- app.py lines 297-312: the POST /recommendations/ handler.  n_items is the
local constant 5; any exception from LLM4rec becomes HTTPException 500 with
detail str(e). -/
def get_recommendations (llm : LlmOracle) (search : VsOracle) (items : List String) :
    HttpResponse × List Call :=
  let n_items := 5
  match LLM4rec llm search items n_items with
  | (Except.ok result, log) => (HttpResponse.ok result, log)
  | (Except.error e, log) => (HttpResponse.httpError 500 e, log)

/-- src/01 lines 277-298 and 407-432: the one-time provisioning waits.
while time.time() <= stop_time: poll; if not ready sleep a fixed interval;
after the loop a still-waiting flag raises the timeout exception.  Time is
modelled as elapsed seconds advanced by the sleep; the poll at iteration k
asks the readiness oracle at k. -/
def pollFrom (ready : Nat → Bool) (sleep : Nat) (hs : 0 < sleep) (stop : Nat)
    (timeoutMsg : String) (now : Nat) (k : Nat) : Except String Nat :=
  if now ≤ stop then
    if ready k then Except.ok k
    else pollFrom ready sleep hs stop timeoutMsg (now + sleep) (k + 1)
  else Except.error timeoutMsg
termination_by stop + 1 - now
decreasing_by omega

/-- src/01 lines 277-298: endpoint readiness wait: timeout 30*60 s, sleep 30 s. -/
def wait_for_endpoint_ready (ready : Nat → Bool) : Except String Nat :=
  pollFrom ready 30 (by decide) (30 * 60)
    "Timeout expired waiting for endpoint to achieve a ready state.  Consider elevating the timeout setting." 0 0

/-- src/01 lines 407-432: index readiness wait: timeout 120*60 s, sleep 60 s. -/
def wait_for_index_ready (ready : Nat → Bool) : Except String Nat :=
  pollFrom ready 60 (by decide) (120 * 60)
    "Timeout expired waiting for index to be provisioned.  Consider elevating the timeout setting." 0 0

/-- the queries of the vector-index calls recorded in a call log. -/
def vsQueries : List Call → List String
  | [] => []
  | Call.vs q _ :: rest => q :: vsQueries rest
  | Call.llm _ :: rest => vsQueries rest

example :
    (notebook_pipeline (fun _ => Except.ok "\x7b\"next_items\": [\"x\"]\x7d")
      (fun q _ => Except.ok [[Cell.str q, Cell.str q]]) ["meia"] 5).1 =
      Except.ok [Cell.str "\x7b\"next_items\": [\"x\"]\x7d"] := rfl

example :
    (LLM4rec (fun _ => Except.ok "\x7b\"next_items\": [\"x\"]\x7d")
      (fun q _ => Except.ok [[Cell.str q, Cell.str q]]) ["meia"] 5).1 =
      Except.ok [Cell.str ("[" ++ apo ++ "x" ++ apo ++ "]")] := rfl

/- ------------------------------------------------------------------ -/
/- helper lemmas                                                      -/
/- ------------------------------------------------------------------ -/

theorem data_append (a b : String) : (a ++ b).data = a.data ++ b.data := by
  cases a
  cases b
  rfl

/-- s contains every element of the second list verbatim as a substring, in
the given order (the occurrences are pairwise disjoint, left to right). -/
def containsInOrder (s : List Char) : List (List Char) → Prop
  | [] => True
  | x :: xs => ∃ pre rest, s = pre ++ x ++ rest ∧ containsInOrder rest xs

theorem containsInOrder_append_left (s t : List Char) (l : List (List Char))
    (h : containsInOrder t l) : containsInOrder (s ++ t) l := by
  cases l with
  | nil => trivial
  | cons x xs =>
    obtain ⟨pre, rest, heq, hrest⟩ := h
    exact ⟨s ++ pre, rest, by rw [heq]; simp, hrest⟩

theorem containsInOrder_append_right (s t : List Char) (l : List (List Char))
    (h : containsInOrder s l) : containsInOrder (s ++ t) l := by
  induction l generalizing s t with
  | nil => trivial
  | cons x xs ih =>
    obtain ⟨pre, rest, heq, hrest⟩ := h
    exact ⟨pre, rest ++ t, by rw [heq]; simp, ih rest t hrest⟩

theorem containsInOrder_single (pre mid post : List Char) :
    containsInOrder (pre ++ mid ++ post) [mid] :=
  ⟨pre, post, by simp, trivial⟩

/-- the characters of a separator-join of l, followed by anything satisfying
the remainder, contain the elements of l in order. -/
theorem containsInOrder_str_join (sep : String) (l : List String)
    (m : List (List Char)) (tail : List Char) (h : containsInOrder tail m) :
    containsInOrder ((str_join sep l).data ++ tail) (l.map String.data ++ m) := by
  induction l with
  | nil =>
    simpa [str_join] using h
  | cons x xs ih =>
    cases xs with
    | nil =>
      exact ⟨[], tail, by simp [str_join], h⟩
    | cons y ys =>
      refine ⟨[], sep.data ++ ((str_join sep (y :: ys)).data ++ tail), ?_, ?_⟩
      · simp [str_join, data_append]
      · exact containsInOrder_append_left _ _ _ ih

theorem dropLast_append_getLastD {α : Type} (x : α) (xs : List α) :
    (x :: xs).dropLast ++ [xs.getLastD x] = x :: xs := by
  induction xs generalizing x with
  | nil => rfl
  | cons y ys ih =>
    have h2 : (y :: ys).getLastD x = ys.getLastD y := by
      cases ys <;> rfl
    calc (x :: y :: ys).dropLast ++ [(y :: ys).getLastD x]
        = x :: ((y :: ys).dropLast ++ [ys.getLastD y]) := by rw [h2]; rfl
      _ = x :: y :: ys := by rw [ih y]

theorem lastIndexOf_append_last (c : Char) (s : List Char) :
    lastIndexOf c (s ++ [c]) = some s.length := by
  induction s with
  | nil => simp [lastIndexOf]
  | cons x xs ih => simp [lastIndexOf, ih]

theorem take_len_append {α : Type} (s t : List α) : (s ++ t).take s.length = s := by
  induction s with
  | nil => rfl
  | cons a s ih => simp [List.take, ih]

theorem exMapM_length {α β : Type} (f : α → Except String β) :
    ∀ (l : List α) (bs : List β), exMapM f l = Except.ok bs → bs.length = l.length := by
  intro l
  induction l with
  | nil => intro bs h; cases h; rfl
  | cons x xs ih =>
    intro bs h
    unfold exMapM at h
    cases hf : f x with
    | error e => rw [hf] at h; cases h
    | ok b =>
      rw [hf] at h
      cases hm : exMapM f xs with
      | error e => rw [hm] at h; cases h
      | ok bs2 =>
        rw [hm] at h
        cases h
        simpa using ih bs2 hm

theorem exMapM_total {α β : Type} (f : α → Except String β) :
    ∀ (l : List α), (∀ x ∈ l, ∃ b, f x = Except.ok b) →
      ∃ bs, exMapM f l = Except.ok bs ∧ bs.length = l.length := by
  intro l
  induction l with
  | nil => intro _; exact ⟨[], rfl, rfl⟩
  | cons x xs ih =>
    intro h
    obtain ⟨b, hb⟩ := h x (by simp)
    obtain ⟨bs, hbs, hlen⟩ := ih (fun y hy => h y (by simp [hy]))
    exact ⟨b :: bs, by simp [exMapM, hb, hbs], by simp [hlen]⟩

theorem pyGet_neg2 {α : Type} (l : List α) (h : 2 ≤ l.length) :
    ∃ a, pyGet l (-2) = Except.ok a := by
  have ht : ((-2 : Int) + l.length).toNat < l.length := by omega
  obtain ⟨a, ha⟩ : ∃ a, l[((-2 : Int) + (l.length : Int)).toNat]? = some a :=
    ⟨_, List.getElem?_eq_getElem ht⟩
  refine ⟨a, ?_⟩
  unfold pyGet
  norm_num
  rw [if_neg (show ¬ l.length < 2 by omega), ha]

/-- exhaustive case analysis of the deployed get_general_products: either a
failure before the chat call (empty log) or the chat call is made, after
which every outcome logs exactly that one call. -/
theorem gga_cases (llm : LlmOracle) (items : List String) :
    (∃ e, get_general_products_app llm items = (Except.error e, [])) ∨
    (∃ p, _get_prompt_app items = Except.ok p ∧
      ((∃ e, get_general_products_app llm items = (Except.error e, [Call.llm p])) ∨
       (∃ raw jt parsed ret, llm p = Except.ok raw ∧ extract_json_text raw = Except.ok jt ∧
         json_loads jt = Except.ok parsed ∧ py_subscript parsed "next_items" = Except.ok ret ∧
         get_general_products_app llm items = (Except.ok ret, [Call.llm p])))) := by
  rcases hdp : _get_prompt_app items with e | prompt
  · exact Or.inl ⟨e, by simp only [get_general_products_app, hdp]⟩
  · refine Or.inr ⟨prompt, rfl, ?_⟩
    rcases hl : llm prompt with e | raw
    · exact Or.inl ⟨e, by simp only [get_general_products_app, hdp, hl]⟩
    · rcases he : extract_json_text raw with e | jt
      · exact Or.inl ⟨e, by simp only [get_general_products_app, hdp, hl, he]⟩
      · rcases hj : json_loads jt with e | parsed
        · exact Or.inl ⟨e, by simp only [get_general_products_app, hdp, hl, he, hj]⟩
        · rcases hsub : py_subscript parsed "next_items" with e | ret
          · exact Or.inl ⟨e, by simp only [get_general_products_app, hdp, hl, he, hj, hsub]⟩
          · exact Or.inr ⟨raw, jt, parsed, ret, rfl, he, hj, hsub,
              by simp only [get_general_products_app, hdp, hl, he, hj, hsub]⟩

/-- get_specific_products always performs exactly one similarity search. -/
theorem gsp_log (search : VsOracle) (g : Json) (n : Nat) :
    (get_specific_products search g n).2 = [Call.vs (pyStr g) n] := by
  rcases hq : search (pyStr g) n with e | rows
  · simp only [get_specific_products, hq]
  · rcases hm : exMapM (fun item => pyGet item (-2)) rows with e | texts
    · simp only [get_specific_products, hq, hm]
    · simp only [get_specific_products, hq, hm]

/-- inversion of a successful get_specific_products run. -/
theorem gsp_ok_inv (search : VsOracle) (g : Json) (n : Nat) (l : List Cell)
    (h : (get_specific_products search g n).1 = Except.ok l) :
    ∃ rows, search (pyStr g) n = Except.ok rows ∧
      exMapM (fun item => pyGet item (-2)) rows = Except.ok l := by
  rcases hs : search (pyStr g) n with e | rows
  · simp only [get_specific_products, hs] at h
    exact Except.noConfusion h
  · rcases hm : exMapM (fun item => pyGet item (-2)) rows with e | texts
    · simp only [get_specific_products, hs, hm] at h
      exact Except.noConfusion h
    · simp only [get_specific_products, hs, hm] at h
      injection h with h2
      subst h2
      exact ⟨rows, rfl, hm⟩

/-- a successful LLM4rec run is a successful get_specific_products run on
the parsed general suggestions. -/
theorem LLM4rec_ok_inv (llm : LlmOracle) (search : VsOracle) (items : List String)
    (n : Nat) (l : List Cell) (h : (LLM4rec llm search items n).1 = Except.ok l) :
    ∃ g, (get_specific_products search g n).1 = Except.ok l := by
  rcases gga_cases llm items with ⟨e, hE⟩ | ⟨p, _, hrest⟩
  · simp [LLM4rec, hE] at h
  · rcases hrest with ⟨e, hE⟩ | ⟨raw, jt, parsed, ret, _, _, _, _, hE⟩
    · simp [LLM4rec, hE] at h
    · refine ⟨ret, ?_⟩
      simpa [LLM4rec, hE] using h

/-- the call log of LLM4rec is nothing, one chat call, or one chat call
followed by one vector-index call with the given num_results. -/
theorem LLM4rec_log_shape (llm : LlmOracle) (search : VsOracle)
    (items : List String) (n : Nat) :
    (LLM4rec llm search items n).2 = [] ∨
    (∃ p, (LLM4rec llm search items n).2 = [Call.llm p]) ∨
    (∃ p q, (LLM4rec llm search items n).2 = [Call.llm p, Call.vs q n]) := by
  rcases gga_cases llm items with ⟨e, hE⟩ | ⟨p, _, hrest⟩
  · exact Or.inl (by simp [LLM4rec, hE])
  · rcases hrest with ⟨e, hE⟩ | ⟨raw, jt, parsed, ret, _, _, _, _, hE⟩
    · exact Or.inr (Or.inl ⟨p, by simp [LLM4rec, hE]⟩)
    · refine Or.inr (Or.inr ⟨p, pyStr ret, ?_⟩)
      simp [LLM4rec, hE, gsp_log]

/- ------------------------------------------------------------------ -/
/- claims                                                             -/
/- ------------------------------------------------------------------ -/

/-- C1 counterexample.  The claim asserts that for raw text ending in a
well-formed JSON object possibly preceded by arbitrary prose, the extraction
step returns the parsed mapping.  At the concrete input built from the prose
"Oi " followed by the well-formed JSON object text (whose parse is the
mapping a = 1), the slice from the start through the last closing brace
keeps the prose, so json.loads fails instead of returning the mapping. -/
theorem C1_counterexample :
    json_loads "\x7b\"a\": 1\x7d" = Except.ok (Json.obj [("a", Json.num 1)]) ∧
    "Oi \x7b\"a\": 1\x7d" = "Oi " ++ "\x7b\"a\": 1\x7d" ∧
    parse_llm_response "Oi \x7b\"a\": 1\x7d" =
      Except.error "JSONDecodeError: Expecting value" :=
  ⟨rfl, rfl, rfl⟩

/-- C1 amended: for every raw LLM response text that ends in a well-formed
JSON object and is NOT preceded by any prose (the text is exactly the
object text, which ends in the closing brace), the extraction step of
get_general_products returns the parsed mapping of that object. -/
theorem C1_parser_returns_final_object (s : List Char) (m : List (String × Json))
    (h : json_loads (String.mk (s ++ [rbrace])) = Except.ok (Json.obj m)) :
    parse_llm_response (String.mk (s ++ [rbrace])) = Except.ok (Json.obj m) := by
  have hidx : lastIndexOf rbrace (String.mk (s ++ [rbrace])).data = some s.length :=
    lastIndexOf_append_last rbrace s
  have hlen : (s ++ [rbrace]).length = s.length + 1 := by simp
  have htake : (String.mk (s ++ [rbrace])).data.take (s.length + 1) = s ++ [rbrace] := by
    show (s ++ [rbrace]).take (s.length + 1) = s ++ [rbrace]
    rw [← hlen, List.take_length]
  have hex : extract_json_text (String.mk (s ++ [rbrace])) =
      Except.ok (String.mk (s ++ [rbrace])) := by
    unfold extract_json_text rindex
    rw [hidx]
    simp only [htake]
  unfold parse_llm_response
  rw [hex]
  exact h

/-- C1 witness: the two-character object text consisting of the open and
close braces parses to the empty mapping and is returned by the parser. -/
theorem C1_witness :
    json_loads (String.mk ([lbrace] ++ [rbrace])) = Except.ok (Json.obj []) ∧
    parse_llm_response (String.mk ([lbrace] ++ [rbrace])) = Except.ok (Json.obj []) :=
  ⟨rfl, C1_parser_returns_final_object [lbrace] [] rfl⟩

/-- C2: whenever every chat response the oracle can return either contains
no closing brace (rindex raises) or has a slice that is not valid JSON
(json.loads raises), LLM4rec propagates a failure and the vector-index
similarity search is never invoked. -/
theorem C2_malformed_response_stops_pipeline (llm : LlmOracle) (search : VsOracle)
    (items : List String) (n : Nat)
    (hbad : ∀ p raw, llm p = Except.ok raw →
      (lastIndexOf rbrace raw.data = none ∨
        ∃ jt e, extract_json_text raw = Except.ok jt ∧ json_loads jt = Except.error e)) :
    (∃ e, (LLM4rec llm search items n).1 = Except.error e) ∧
    (∀ q m, Call.vs q m ∉ (LLM4rec llm search items n).2) := by
  rcases gga_cases llm items with ⟨e, hE⟩ | ⟨p, _, hrest⟩
  · exact ⟨⟨e, by simp [LLM4rec, hE]⟩, by intro q m; simp [LLM4rec, hE]⟩
  · rcases hrest with ⟨e, hE⟩ | ⟨raw, jt, parsed, ret, hl, he, hj, hsub, hE⟩
    · exact ⟨⟨e, by simp [LLM4rec, hE]⟩, by intro q m; simp [LLM4rec, hE]⟩
    · exfalso
      rcases hbad p raw hl with hno | ⟨jt2, e2, hjt2, herr⟩
      · unfold extract_json_text rindex at he
        rw [hno] at he
        simp at he
      · rw [he] at hjt2
        injection hjt2 with h2
        subst h2
        rw [hj] at herr
        cases herr

/-- C2 witness: a chat oracle that always answers text with no closing
brace makes the pipeline fail without touching the vector index. -/
theorem C2_witness :
    (∃ e, (LLM4rec (fun _ => Except.ok "sem chaves")
      (fun _ _ => Except.ok []) ["meia"] 5).1 = Except.error e) ∧
    (∀ q m, Call.vs q m ∉ (LLM4rec (fun _ => Except.ok "sem chaves")
      (fun _ _ => Except.ok []) ["meia"] 5).2) :=
  C2_malformed_response_stops_pipeline _ _ _ _ (by
    intro p raw h
    injection h with h2
    subst h2
    exact Or.inl rfl)

/-- C3: with the vector index holding a ranked candidate list and honouring
num_results with a take (ranked list, at most the requested count, all of
whatever is available when fewer), the output of get_specific_products has
length exactly n when at least n candidates exist and length equal to the
available count otherwise, and it never fails for under-supply. -/
theorem C3_result_count (search : VsOracle) (avail : List (List Cell))
    (gen : Json) (n : Nat)
    (hsearch : search (pyStr gen) n = Except.ok (avail.take n))
    (hrows : ∀ row ∈ avail, 2 ≤ row.length) :
    ∃ l, (get_specific_products search gen n).1 = Except.ok l ∧
      (n ≤ avail.length → l.length = n) ∧
      (avail.length < n → l.length = avail.length) := by
  have hall : ∀ row ∈ avail.take n, ∃ c, pyGet row (-2) = Except.ok c := fun row hr =>
    pyGet_neg2 row (hrows row (List.take_subset n avail hr))
  obtain ⟨l, hl, hlen⟩ := exMapM_total (fun item => pyGet item (-2)) (avail.take n) hall
  refine ⟨l, ?_, ?_, ?_⟩
  · simp only [get_specific_products, hsearch, hl]
  · intro h
    rw [hlen, List.length_take]
    omega
  · intro h
    rw [hlen, List.length_take]
    omega

/-- C3 witness: an index with one available record answers a request for
five with that one record and no failure. -/
theorem C3_witness :
    ∃ l, (get_specific_products
        (fun _ m => Except.ok (([[Cell.num 1, Cell.str "bota de neve", Cell.num 9]]).take m))
        (Json.str "botas de inverno") 5).1 = Except.ok l ∧
      (5 ≤ ([[Cell.num 1, Cell.str "bota de neve", Cell.num 9]] : List (List Cell)).length →
        l.length = 5) ∧
      (([[Cell.num 1, Cell.str "bota de neve", Cell.num 9]] : List (List Cell)).length < 5 →
        l.length = ([[Cell.num 1, Cell.str "bota de neve", Cell.num 9]] : List (List Cell)).length) :=
  C3_result_count _ _ _ _ rfl (by
    intro row hr
    rw [List.mem_singleton] at hr
    subst hr
    decide)

/-- C4: for every non-empty ordered item list, both prompt builders (the
notebook _get_prompt of src/03 and get_user_prompt of src/02) succeed and
produce a prompt that contains every input item verbatim in input order and
that contains, verbatim, the instruction sentence asking for a JSON object
response with key next_items holding the array of recommended items. -/
theorem C4_prompt_contains_items_in_order (x : String) (xs : List String) :
    ∃ p u, _get_prompt (x :: xs) = Except.ok p ∧ get_user_prompt (x :: xs) = Except.ok u ∧
      containsInOrder p.data ((x :: xs).map String.data) ∧
      containsInOrder u.data ((x :: xs).map String.data) ∧
      List.IsInfix json_instruction_pt.data p.data ∧
      List.IsInfix json_instruction_pt.data u.data := by
  cases xs with
  | nil =>
    refine ⟨_, _, rfl, rfl, ?_, ?_, ?_, ?_⟩
    · exact ⟨("[INST] <<SYS>>\n" ++ system_prompt_pt ++ "\n<</SYS>>\n" ++
        "Um usuário comprou ").data,
        ((" nessa ordem. Quais seriam os cinco itens que ele/ela provavelmente compraria em seguida?" : String) ++
          json_instruction_pt ++ "[/INST]").data,
        by simp [data_append], trivial⟩
    · exact ⟨("Um usuário comprou os seguintes itens: " : String).data,
        ((". Quais seriam os próximos dez itens que ele/ela provavelmente compraria?" : String) ++
          (" " ++ json_instruction_pt)).data,
        by simp [data_append, str_join], trivial⟩
    · exact ⟨("[INST] <<SYS>>\n" ++ system_prompt_pt ++ "\n<</SYS>>\n" ++
        ("Um usuário comprou " ++ x ++
          " nessa ordem. Quais seriam os cinco itens que ele/ela provavelmente compraria em seguida?")).data,
        ("[/INST]" : String).data, by simp [data_append]⟩
    · exact ⟨("Um usuário comprou os seguintes itens: " ++ x ++
        ". Quais seriam os próximos dez itens que ele/ela provavelmente compraria?" ++ " ").data,
        ([] : List Char), by simp [data_append, str_join]⟩
  | cons y ys =>
    refine ⟨_, _, rfl, rfl, ?_, ?_, ?_, ?_⟩
    · have hsplit := dropLast_append_getLastD x (y :: ys)
      suffices hsuf : containsInOrder
          ("[INST] <<SYS>>\n" ++ system_prompt_pt ++ "\n<</SYS>>\n" ++
            ("Um usuário comprou " ++
              (str_join ", " ((x :: y :: ys).dropLast) ++ ", and " ++ ((y :: ys).getLastD x)) ++
              " nessa ordem. Quais seriam os cinco itens que ele/ela provavelmente compraria em seguida?" ++
              json_instruction_pt) ++ "[/INST]").data
          (((x :: y :: ys).dropLast).map String.data ++ [((y :: ys).getLastD x).data]) by
        have hmaps : ((x :: y :: ys).dropLast).map String.data ++ [((y :: ys).getLastD x).data] =
            (x :: y :: ys).map String.data := by
          rw [show [((y :: ys).getLastD x).data] = [(y :: ys).getLastD x].map String.data from rfl,
            ← List.map_append, hsplit]
        rwa [hmaps] at hsuf
      have heq : ("[INST] <<SYS>>\n" ++ system_prompt_pt ++ "\n<</SYS>>\n" ++
            ("Um usuário comprou " ++
              (str_join ", " ((x :: y :: ys).dropLast) ++ ", and " ++ ((y :: ys).getLastD x)) ++
              " nessa ordem. Quais seriam os cinco itens que ele/ela provavelmente compraria em seguida?" ++
              json_instruction_pt) ++ "[/INST]").data =
          ("[INST] <<SYS>>\n" ++ system_prompt_pt ++ "\n<</SYS>>\n" ++ "Um usuário comprou ").data ++
            ((str_join ", " ((x :: y :: ys).dropLast)).data ++
              ((", and " : String).data ++ (((y :: ys).getLastD x).data ++
                ((" nessa ordem. Quais seriam os cinco itens que ele/ela provavelmente compraria em seguida?" : String) ++
                  json_instruction_pt ++ "[/INST]").data))) := by
        simp [data_append]
      rw [heq]
      apply containsInOrder_append_left
      apply containsInOrder_str_join
      exact ⟨(", and " : String).data,
        ((" nessa ordem. Quais seriam os cinco itens que ele/ela provavelmente compraria em seguida?" : String) ++
          json_instruction_pt ++ "[/INST]").data, rfl, trivial⟩
    · have hsuf : containsInOrder
          (("Um usuário comprou os seguintes itens: " ++ (str_join ", " (x :: y :: ys)) ++
            ". Quais seriam os próximos dez itens que ele/ela provavelmente compraria?") ++
            (" " ++ json_instruction_pt)).data
          ((x :: y :: ys).map String.data ++ []) := by
        have heq : (("Um usuário comprou os seguintes itens: " ++ (str_join ", " (x :: y :: ys)) ++
              ". Quais seriam os próximos dez itens que ele/ela provavelmente compraria?") ++
              (" " ++ json_instruction_pt)).data =
            ("Um usuário comprou os seguintes itens: " : String).data ++
              ((str_join ", " (x :: y :: ys)).data ++
                ((". Quais seriam os próximos dez itens que ele/ela provavelmente compraria?" : String) ++
                  (" " ++ json_instruction_pt)).data) := by
          simp [data_append]
        rw [heq]
        apply containsInOrder_append_left
        exact containsInOrder_str_join _ _ _ _ trivial
      simpa using hsuf
    · exact ⟨("[INST] <<SYS>>\n" ++ system_prompt_pt ++ "\n<</SYS>>\n" ++
        ("Um usuário comprou " ++
          (str_join ", " ((x :: y :: ys).dropLast) ++ ", and " ++ ((y :: ys).getLastD x)) ++
          " nessa ordem. Quais seriam os cinco itens que ele/ela provavelmente compraria em seguida?")).data,
        ("[/INST]" : String).data, by simp [data_append]⟩
    · exact ⟨("Um usuário comprou os seguintes itens: " ++ (str_join ", " (x :: y :: ys)) ++
        ". Quais seriam os próximos dez itens que ele/ela provavelmente compraria?" ++ " ").data,
        ([] : List Char), by simp [data_append]⟩

/-- C5: on the empty item list both prompt builders fail (items subscript
zero raises IndexError in src/03; the None prompt makes the += raise
TypeError in src/02), and both end-to-end pipelines fail with an empty call
log: no chat-completion call and no vector-index call is ever made. -/
theorem C5_empty_items_fail_before_network (llm : LlmOracle) (search : VsOracle) :
    (∃ e, _get_prompt [] = Except.error e) ∧
    (∃ e, get_user_prompt [] = Except.error e) ∧
    (∃ e, (LLM4rec llm search [] 5).1 = Except.error e) ∧
    (LLM4rec llm search [] 5).2 = [] ∧
    (∃ e, (notebook_pipeline llm search [] 5).1 = Except.error e) ∧
    (notebook_pipeline llm search [] 5).2 = [] :=
  ⟨⟨_, rfl⟩, ⟨_, rfl⟩, ⟨_, rfl⟩, rfl, ⟨_, rfl⟩, rfl⟩

/-- projecting item at minus two over rows of shape id, text, score yields
the text column. -/
theorem exMapM_neg2_on_triples (triples : List (Cell × String × Cell)) :
    exMapM (fun item => pyGet item (-2))
      (triples.map (fun z => [z.1, Cell.str z.2.1, z.2.2])) =
      Except.ok (triples.map (fun z => Cell.str z.2.1)) := by
  induction triples with
  | nil => rfl
  | cons t ts ih => simp [exMapM, ih, show pyGet [t.1, Cell.str t.2.1, t.2.2] (-2) =
      Except.ok (Cell.str t.2.1) from rfl]

/-- C6: when the index answers with rows of shape id, text, score, the
output of get_specific_products is exactly the text column of the rows, in
the returned (ranked) order, extracted by the position item at minus two. -/
theorem C6_projects_text_column (search : VsOracle) (gen : Json) (n : Nat)
    (triples : List (Cell × String × Cell))
    (hsearch : search (pyStr gen) n =
      Except.ok (triples.map (fun z => [z.1, Cell.str z.2.1, z.2.2]))) :
    (get_specific_products search gen n).1 =
      Except.ok (triples.map (fun z => Cell.str z.2.1)) ∧
    (get_specific_products search gen n).2 = [Call.vs (pyStr gen) n] :=
  ⟨by simp only [get_specific_products, hsearch, exMapM_neg2_on_triples], gsp_log _ _ _⟩

/-- C6 witness: one returned row of shape id, text, score projects to its
text cell. -/
theorem C6_witness :
    (get_specific_products (fun _ _ => Except.ok [[Cell.num 1, Cell.str "luva de lã", Cell.num 9]])
      (Json.str "q") 3).1 = Except.ok [Cell.str "luva de lã"] ∧
    (get_specific_products (fun _ _ => Except.ok [[Cell.num 1, Cell.str "luva de lã", Cell.num 9]])
      (Json.str "q") 3).2 = [Call.vs (pyStr (Json.str "q")) 3] :=
  C6_projects_text_column _ _ _ [(Cell.num 1, "luva de lã", Cell.num 9)] rfl

def isLlmCall : Call → Bool
  | Call.llm _ => true
  | Call.vs _ _ => false

def isVsCall : Call → Bool
  | Call.vs _ _ => true
  | Call.llm _ => false

/-- a log of the possible LLM4rec shapes makes at most one call of each
kind. -/
theorem log_counts (log : List Call)
    (h : log = [] ∨ (∃ p, log = [Call.llm p]) ∨ (∃ p q m, log = [Call.llm p, Call.vs q m])) :
    log.countP isLlmCall ≤ 1 ∧ log.countP isVsCall ≤ 1 := by
  rcases h with h | ⟨p, h⟩ | ⟨p, q, m, h⟩ <;> subst h <;>
    simp [List.countP_cons, isLlmCall, isVsCall]

/-- C7: the single POST route returns the orchestrator result unchanged on
success, and on any internal failure returns status 500 carrying the
propagated error-detail string; its call log is exactly the log of one
orchestrator run, in which each upstream service is called at most once, so
nothing is retried and nothing is silently recovered. -/
theorem C7_front_door (llm : LlmOracle) (search : VsOracle) (items : List String) :
    ((∃ r, (get_recommendations llm search items).1 = HttpResponse.ok r ∧
        (LLM4rec llm search items 5).1 = Except.ok r) ∨
     (∃ e, (get_recommendations llm search items).1 = HttpResponse.httpError 500 e ∧
        (LLM4rec llm search items 5).1 = Except.error e)) ∧
    (get_recommendations llm search items).2 = (LLM4rec llm search items 5).2 ∧
    (get_recommendations llm search items).2.countP isLlmCall ≤ 1 ∧
    (get_recommendations llm search items).2.countP isVsCall ≤ 1 := by
  have hshape := LLM4rec_log_shape llm search items 5
  rcases hL : LLM4rec llm search items 5 with ⟨res, log⟩
  rw [hL] at hshape
  have hshape2 : log = [] ∨ (∃ p, log = [Call.llm p]) ∨
      (∃ p q m, log = [Call.llm p, Call.vs q m]) := by
    rcases hshape with h | ⟨p, h⟩ | ⟨p, q, h⟩
    · exact Or.inl h
    · exact Or.inr (Or.inl ⟨p, h⟩)
    · exact Or.inr (Or.inr ⟨p, q, 5, h⟩)
  obtain ⟨hc1, hc2⟩ := log_counts log hshape2
  cases res with
  | ok r =>
    have hh : get_recommendations llm search items = (HttpResponse.ok r, log) := by
      simp only [get_recommendations, hL]
    rw [hh]
    exact ⟨Or.inl ⟨r, rfl, rfl⟩, rfl, hc1, hc2⟩
  | error e =>
    have hh : get_recommendations llm search items = (HttpResponse.httpError 500 e, log) := by
      simp only [get_recommendations, hL]
    rw [hh]
    exact ⟨Or.inr ⟨e, rfl, rfl⟩, rfl, hc1, hc2⟩

def llm_c8 : LlmOracle := fun _ => Except.ok "\x7b\"next_items\": [\"x\"]\x7d"

def vs_c8 : VsOracle := fun q _ => Except.ok [[Cell.str q, Cell.str q]]

/-- C8 counterexample.  With identical external services (the same chat
oracle, answering every prompt with the same response text, and the same
vector-index oracle), the notebook pipeline queries the vector index with
the raw extracted JSON text while the app.py pipeline queries with the
Python string form of the parsed next_items list; the two query strings
differ and the two final outputs differ. -/
theorem C8_counterexample :
    vsQueries (notebook_pipeline llm_c8 vs_c8 ["meia"] 5).2 =
      ["\x7b\"next_items\": [\"x\"]\x7d"] ∧
    vsQueries (LLM4rec llm_c8 vs_c8 ["meia"] 5).2 = ["[" ++ apo ++ "x" ++ apo ++ "]"] ∧
    ("\x7b\"next_items\": [\"x\"]\x7d" : String) ≠ "[" ++ apo ++ "x" ++ apo ++ "]" ∧
    (notebook_pipeline llm_c8 vs_c8 ["meia"] 5).1 =
      Except.ok [Cell.str "\x7b\"next_items\": [\"x\"]\x7d"] ∧
    (LLM4rec llm_c8 vs_c8 ["meia"] 5).1 =
      Except.ok [Cell.str ("[" ++ apo ++ "x" ++ apo ++ "]")] ∧
    ([Cell.str "\x7b\"next_items\": [\"x\"]\x7d"] : List Cell) ≠
      [Cell.str ("[" ++ apo ++ "x" ++ apo ++ "]")] :=
  ⟨rfl, rfl, by decide, rfl, rfl, by decide⟩

/-- C8 amended: the two pipelines are not extensionally equal; when both
general stages succeed (the notebook yielding the extracted JSON text and
app.py yielding the parsed next_items value) and the vector index returns
the same response for the notebook query string (the raw extracted JSON
text) as for the app.py query string (the Python string form of the parsed
next_items value), then the final outputs coincide. -/
theorem C8_pipelines_agree_when_index_responses_agree
    (llm : LlmOracle) (search : VsOracle) (items : List String) (n : Nat)
    (json_text : String) (v : Json)
    (h1 : (get_general_products llm items).1 = Except.ok json_text)
    (h2 : (get_general_products_app llm items).1 = Except.ok v)
    (h3 : search json_text n = search (pyStr v) n) :
    (notebook_pipeline llm search items n).1 = (LLM4rec llm search items n).1 := by
  rcases hg1 : get_general_products llm items with ⟨r1, log1⟩
  rcases hg2 : get_general_products_app llm items with ⟨r2, log2⟩
  rw [hg1] at h1
  rw [hg2] at h2
  simp only at h1 h2
  subst h1
  subst h2
  unfold notebook_pipeline LLM4rec
  rw [hg1, hg2]
  show (get_specific_products search (Json.str json_text) n).1 =
    (get_specific_products search v n).1
  unfold get_specific_products
  dsimp only
  rw [show pyStr (Json.str json_text) = json_text from rfl, h3]
  rcases search (pyStr v) n with e | rows
  · rfl
  · dsimp only
    rcases exMapM (fun item => pyGet item (-2)) rows with e | texts <;> rfl

/-- C8 witness: a concrete run in which the index gives the same (empty)
response to every query, so both pipelines produce the same output. -/
theorem C8_witness :
    (notebook_pipeline llm_c8 (fun _ _ => Except.ok []) ["meia"] 5).1 =
      (LLM4rec llm_c8 (fun _ _ => Except.ok []) ["meia"] 5).1 :=
  C8_pipelines_agree_when_index_responses_agree _ _ _ _
    "\x7b\"next_items\": [\"x\"]\x7d" (Json.arr [Json.str "x"]) rfl rfl rfl

/-- C9: the handler hardwires n_items to 5: every vector-index call it makes
requests exactly 5 results, and as long as the index never returns more rows
than requested, no request body can obtain more than 5 suggestions. -/
theorem C9_request_count_capped_at_5 (llm : LlmOracle) (search : VsOracle)
    (items : List String)
    (hcap : ∀ q rows, search q 5 = Except.ok rows → rows.length ≤ 5) :
    (∀ r, (get_recommendations llm search items).1 = HttpResponse.ok r → r.length ≤ 5) ∧
    (∀ q m, Call.vs q m ∈ (get_recommendations llm search items).2 → m = 5) := by
  have hshape := LLM4rec_log_shape llm search items 5
  rcases hL : LLM4rec llm search items 5 with ⟨res, log⟩
  rw [hL] at hshape
  constructor
  · intro r hok
    cases res with
    | error e =>
      have hh : get_recommendations llm search items = (HttpResponse.httpError 500 e, log) := by
        simp only [get_recommendations, hL]
      rw [hh] at hok
      exact HttpResponse.noConfusion hok
    | ok rr =>
      have hh : get_recommendations llm search items = (HttpResponse.ok rr, log) := by
        simp only [get_recommendations, hL]
      rw [hh] at hok
      injection hok with h2
      subst h2
      obtain ⟨g, hg⟩ := LLM4rec_ok_inv llm search items 5 rr
        (by rw [hL])
      obtain ⟨rows, hrows, hmap⟩ := gsp_ok_inv search g 5 rr hg
      have := exMapM_length (fun item => pyGet item (-2)) rows rr hmap
      have := hcap (pyStr g) rows hrows
      omega
  · intro q m hmem
    have hh : (get_recommendations llm search items).2 = log := by
      cases res <;> simp only [get_recommendations, hL]
    rw [hh] at hmem
    rcases hshape with h | ⟨p, h⟩ | ⟨p, q2, h⟩
    · subst h
      simp at hmem
    · subst h
      simp at hmem
    · subst h
      simp at hmem
      exact hmem.2

/-- C9 witness: with an index honouring the requested count, a concrete
request returns at most five items and only num_results 5 is ever sent. -/
theorem C9_witness :
    (∀ r, (get_recommendations (fun _ => Except.ok "\x7b\"next_items\": [\"x\"]\x7d")
        (fun _ _ => Except.ok []) ["meia"]).1 = HttpResponse.ok r → r.length ≤ 5) ∧
    (∀ q m, Call.vs q m ∈ (get_recommendations (fun _ => Except.ok "\x7b\"next_items\": [\"x\"]\x7d")
        (fun _ _ => Except.ok []) ["meia"]).2 → m = 5) :=
  C9_request_count_capped_at_5 _ _ _ (by
    intro q rows h
    injection h with h2
    subst h2
    simp)

/-- one unfolding step of the polling loop settles the whole run: either
some poll observes readiness within the deadline and the loop returns it,
or the deadline passes and the loop raises the timeout error. -/
theorem pollFrom_terminates (ready : Nat → Bool) (sleep : Nat) (hs : 0 < sleep)
    (stop : Nat) (msg : String) :
    ∀ (fuel now k : Nat), stop + 1 - now ≤ fuel →
      ((∃ j, pollFrom ready sleep hs stop msg now k = Except.ok j ∧ ready j = true) ∨
        pollFrom ready sleep hs stop msg now k = Except.error msg) := by
  intro fuel
  induction fuel with
  | zero =>
    intro now k hle
    right
    unfold pollFrom
    rw [if_neg (by omega)]
  | succ f ih =>
    intro now k hle
    by_cases hnow : now ≤ stop
    · cases hr : ready k with
      | true =>
        left
        refine ⟨k, ?_, hr⟩
        unfold pollFrom
        rw [if_pos hnow, hr]
        simp
      | false =>
        have hstep : pollFrom ready sleep hs stop msg now k =
            pollFrom ready sleep hs stop msg (now + sleep) (k + 1) := by
          conv_lhs => unfold pollFrom
          rw [if_pos hnow, hr]
          simp
        rw [hstep]
        exact ih (now + sleep) (k + 1) (by omega)
    · right
      unfold pollFrom
      rw [if_neg hnow]

/-- C10: both one-time provisioning waits (endpoint readiness: 30-minute
deadline polled every 30 seconds; index readiness: 120-minute deadline
polled every 60 seconds) terminate for every readiness oracle: either some
poll observes a ready status and the wait returns it, or the deadline is
exceeded and the wait raises the terminal timeout error from the source. -/
theorem C10_provisioning_waits_terminate (readyE readyI : Nat → Bool) :
    ((∃ j, wait_for_endpoint_ready readyE = Except.ok j ∧ readyE j = true) ∨
      wait_for_endpoint_ready readyE = Except.error
        "Timeout expired waiting for endpoint to achieve a ready state.  Consider elevating the timeout setting.") ∧
    ((∃ j, wait_for_index_ready readyI = Except.ok j ∧ readyI j = true) ∨
      wait_for_index_ready readyI = Except.error
        "Timeout expired waiting for index to be provisioned.  Consider elevating the timeout setting.") :=
  ⟨pollFrom_terminates readyE 30 (by decide) (30 * 60) _ (30 * 60 + 1) 0 0 (by omega),
    pollFrom_terminates readyI 60 (by decide) (120 * 60) _ (120 * 60 + 1) 0 0 (by omega)⟩
